import Mathlib

/-!
Verification of the RiskAnalyzer logic of the fraud-detection dashboard
(`streamlit_upi_analyzer.py`): a shallow embedding of the five tabular
record types and of the score / anomaly computations, with theorems
settling the specified properties.

Tables are ordered sequences of rows (Lean lists of structures).
Python float arithmetic on the rates is embedded as exact rational
arithmetic; Python's ZeroDivisionError is embedded as `Option.none`.
-/

/-- A row of the user-login log (FILE 1). -/
structure LoginEvent where
  timestamp : String
  user_id : String
  ip_address : String
  login_status : String
  browser : String
deriving DecidableEq

/-- A row of the session-duration log (FILE 2). -/
structure SessionRecord where
  session_id : String
  user_id : String
  start_time : String
  end_time : String
  duration_minutes : Int
deriving DecidableEq

/-- A row of the unauthenticated-access log (FILE 3). -/
structure AuthAttempt where
  timestamp : String
  ip_address : String
  auth_status : String
  attempt_count : Int
  failure_reason : String
deriving DecidableEq

/-- A row of the request log (FILE 4). -/
structure RequestLog where
  timestamp : String
  ip_address : String
  request_type : String
  payload_size : Int
  status_code : Int
deriving DecidableEq

/-- A row of the service-subscription log (FILE 5). -/
structure ServiceSubscription where
  user_id : String
  service_name : String
  subscription_date : String
  status : String
  plan_type : String
deriving DecidableEq

/-- Embeds `len(login_df[login_df['login_status']=='failed'])`. -/
def failed_login_count (login_df : List LoginEvent) : Nat :=
  (login_df.filter (fun r => r.login_status == "failed")).length

/-- Embeds `len(unauth_df[unauth_df['auth_status']=='unauthenticated'])`. -/
def unauth_count (unauth_df : List AuthAttempt) : Nat :=
  (unauth_df.filter (fun r => r.auth_status == "unauthenticated")).length

/-- Embeds `len(request_df[request_df['request_type'].isin(['blank', 'dos_attack'])])`. -/
def attack_count (request_df : List RequestLog) : Nat :=
  (request_df.filter
    (fun r => r.request_type == "blank" || r.request_type == "dos_attack")).length

/-- Embeds `failed_login_rate = len(failed) / len(login_df) * 100`; division by a
zero denominator raises in Python, embedded as `none`. -/
def failed_login_rate (login_df : List LoginEvent) : Option ℚ :=
  if login_df.length = 0 then none
  else some ((failed_login_count login_df : ℚ) / (login_df.length : ℚ) * 100)

/-- Embeds `unauth_rate = len(unauth) / len(unauth_df) * 100`. -/
def unauth_rate (unauth_df : List AuthAttempt) : Option ℚ :=
  if unauth_df.length = 0 then none
  else some ((unauth_count unauth_df : ℚ) / (unauth_df.length : ℚ) * 100)

/-- Embeds `attack_rate = len(attacks) / len(request_df) * 100`. -/
def attack_rate (request_df : List RequestLog) : Option ℚ :=
  if request_df.length = 0 then none
  else some ((attack_count request_df : ℚ) / (request_df.length : ℚ) * 100)

/-- The composite line
`fraud_score = failed_login_rate * 0.3 + unauth_rate * 0.4 + attack_rate * 0.3`. -/
def fraud_score_of_rates (flr ur ar : ℚ) : ℚ :=
  flr * (3 / 10) + ur * (4 / 10) + ar * (3 / 10)

/-- The `if fraud_score < 15 ... else "CRITICAL"` chain choosing `risk_level`. -/
def risk_level (fraud_score : ℚ) : String :=
  if fraud_score < 15 then "LOW"
  else if fraud_score < 30 then "MEDIUM"
  else if fraud_score < 50 then "HIGH"
  else "CRITICAL"

/-- The score/tier computation of `create_fraud_score_gauge` (the returned
figure is presentation only and is not modelled). -/
def create_fraud_score_gauge (login_df : List LoginEvent)
    (unauth_df : List AuthAttempt) (request_df : List RequestLog) :
    Option (ℚ × String) := do
  let flr ← failed_login_rate login_df
  let ur ← unauth_rate unauth_df
  let ar ← attack_rate request_df
  let fraud_score := fraud_score_of_rates flr ur ar
  pure (fraud_score, risk_level fraud_score)

/-- Sample authenticated attempt row, for concrete witnesses. -/
def sampleAuth : AuthAttempt :=
  ⟨"2026-02-01 00:00:00", "10.0.0.1", "authenticated", 1, "None"⟩

/-- Sample normal request row, for concrete witnesses. -/
def sampleReq : RequestLog :=
  ⟨"2026-02-01 00:00:00", "10.0.0.1", "normal", 100, 200⟩

/-- Sample successful login row, for concrete witnesses. -/
def sampleLogin : LoginEvent :=
  ⟨"2026-02-01 00:00:00", "USR0001", "10.0.0.1", "success", "Chrome"⟩

lemma rate_nonneg_le_100 {c n : Nat} (hc : c ≤ n) (hn : 0 < n) :
    0 ≤ (c : ℚ) / (n : ℚ) * 100 ∧ (c : ℚ) / (n : ℚ) * 100 ≤ 100 := by
  have hn' : (0 : ℚ) < (n : ℚ) := by exact_mod_cast hn
  constructor
  · positivity
  · have h1 : (c : ℚ) / (n : ℚ) ≤ 1 := by
      rw [div_le_one hn']
      exact_mod_cast hc
    nlinarith

lemma failed_login_count_le (ls : List LoginEvent) :
    failed_login_count ls ≤ ls.length :=
  List.length_filter_le _ _

lemma unauth_count_le (atts : List AuthAttempt) :
    unauth_count atts ≤ atts.length :=
  List.length_filter_le _ _

lemma attack_count_le (reqs : List RequestLog) :
    attack_count reqs ≤ reqs.length :=
  List.length_filter_le _ _

/-- C1: for every non-empty logins, auth_attempts, and requests table,
`create_fraud_score_gauge` returns
`score = 0.3*failed_login_rate + 0.4*unauth_rate + 0.3*attack_rate`
(with each rate `100*count/total`), together with the tier derived from the
score, and the score lies in `[0, 100]`. -/
theorem create_fraud_score_gauge_spec (ls : List LoginEvent)
    (atts : List AuthAttempt) (reqs : List RequestLog)
    (hl : ls ≠ []) (ha : atts ≠ []) (hr : reqs ≠ []) :
    ∃ score : ℚ,
      create_fraud_score_gauge ls atts reqs = some (score, risk_level score) ∧
      score = (3 / 10) * (100 * (failed_login_count ls : ℚ) / (ls.length : ℚ))
            + (4 / 10) * (100 * (unauth_count atts : ℚ) / (atts.length : ℚ))
            + (3 / 10) * (100 * (attack_count reqs : ℚ) / (reqs.length : ℚ)) ∧
      0 ≤ score ∧ score ≤ 100 := by
  have hl0 : ls.length ≠ 0 := fun h => hl (List.length_eq_zero.mp h)
  have ha0 : atts.length ≠ 0 := fun h => ha (List.length_eq_zero.mp h)
  have hr0 : reqs.length ≠ 0 := fun h => hr (List.length_eq_zero.mp h)
  have e1 : failed_login_rate ls =
      some ((failed_login_count ls : ℚ) / (ls.length : ℚ) * 100) := by
    rw [failed_login_rate, if_neg hl0]
  have e2 : unauth_rate atts =
      some ((unauth_count atts : ℚ) / (atts.length : ℚ) * 100) := by
    rw [unauth_rate, if_neg ha0]
  have e3 : attack_rate reqs =
      some ((attack_count reqs : ℚ) / (reqs.length : ℚ) * 100) := by
    rw [attack_rate, if_neg hr0]
  refine ⟨fraud_score_of_rates
      ((failed_login_count ls : ℚ) / (ls.length : ℚ) * 100)
      ((unauth_count atts : ℚ) / (atts.length : ℚ) * 100)
      ((attack_count reqs : ℚ) / (reqs.length : ℚ) * 100), ?_, ?_, ?_, ?_⟩
  · simp [create_fraud_score_gauge, e1, e2, e3]
  · rw [fraud_score_of_rates]; ring
  · have b1 := rate_nonneg_le_100 (failed_login_count_le ls) (Nat.pos_of_ne_zero hl0)
    have b2 := rate_nonneg_le_100 (unauth_count_le atts) (Nat.pos_of_ne_zero ha0)
    have b3 := rate_nonneg_le_100 (attack_count_le reqs) (Nat.pos_of_ne_zero hr0)
    rw [fraud_score_of_rates]
    nlinarith [b1.1, b2.1, b3.1]
  · have b1 := rate_nonneg_le_100 (failed_login_count_le ls) (Nat.pos_of_ne_zero hl0)
    have b2 := rate_nonneg_le_100 (unauth_count_le atts) (Nat.pos_of_ne_zero ha0)
    have b3 := rate_nonneg_le_100 (attack_count_le reqs) (Nat.pos_of_ne_zero hr0)
    rw [fraud_score_of_rates]
    nlinarith [b1.2, b2.2, b3.2]

/-- Witness for C1 at a concrete one-row instance of each table. -/
theorem create_fraud_score_gauge_spec_witness :
    ∃ score : ℚ,
      create_fraud_score_gauge [sampleLogin] [sampleAuth] [sampleReq] =
        some (score, risk_level score) ∧
      score = (3 / 10) * (100 * (failed_login_count [sampleLogin] : ℚ) / 1)
            + (4 / 10) * (100 * (unauth_count [sampleAuth] : ℚ) / 1)
            + (3 / 10) * (100 * (attack_count [sampleReq] : ℚ) / 1) ∧
      0 ≤ score ∧ score ≤ 100 :=
  create_fraud_score_gauge_spec [sampleLogin] [sampleAuth] [sampleReq]
    (by decide) (by decide) (by decide)

/-- C2: the risk tier is the pure step function of the score with
inclusive-low, exclusive-high boundaries, including the stated boundary
evaluations 14.99→LOW, 15→MEDIUM, 29.99→MEDIUM, 30→HIGH, 49.99→HIGH,
50→CRITICAL. -/
theorem risk_level_step (s : ℚ) :
    (s < 15 → risk_level s = "LOW") ∧
    (15 ≤ s → s < 30 → risk_level s = "MEDIUM") ∧
    (30 ≤ s → s < 50 → risk_level s = "HIGH") ∧
    (50 ≤ s → risk_level s = "CRITICAL") ∧
    risk_level (1499 / 100) = "LOW" ∧
    risk_level 15 = "MEDIUM" ∧
    risk_level (2999 / 100) = "MEDIUM" ∧
    risk_level 30 = "HIGH" ∧
    risk_level (4999 / 100) = "HIGH" ∧
    risk_level 50 = "CRITICAL" := by
  refine ⟨?_, ?_, ?_, ?_, ?_, ?_, ?_, ?_, ?_, ?_⟩ <;>
    first
      | (intro h; simp only [risk_level]; split_ifs <;> first | rfl | linarith)
      | (intro h1 h2; simp only [risk_level]; split_ifs <;> first | rfl | linarith)
      | (simp only [risk_level]; norm_num)

/-- Witness for C2 at score 0. -/
theorem risk_level_step_witness : risk_level 0 = "LOW" :=
  (risk_level_step 0).1 (by norm_num)

/-- Counterexample to C3 as stated: with an empty logins table (and
non-empty other tables) the computation yields no result at all — the
zero-denominator rate is not defined as 0. -/
theorem fraud_score_empty_counterexample :
    create_fraud_score_gauge [] [sampleAuth] [sampleReq] = none := rfl

/-- C3 amended: when any one of the three input tables is empty, the rate
computation hits a zero denominator and `create_fraud_score_gauge`
propagates the division fault (embedded as `none`) instead of returning a
result with that rate defined as 0. -/
theorem fraud_score_empty_fails (ls : List LoginEvent)
    (atts : List AuthAttempt) (reqs : List RequestLog)
    (h : ls = [] ∨ atts = [] ∨ reqs = []) :
    create_fraud_score_gauge ls atts reqs = none := by
  rcases h with h | h | h
  · subst h
    rfl
  · subst h
    cases e1 : failed_login_rate ls <;>
      simp [create_fraud_score_gauge, e1, unauth_rate]
  · subst h
    cases e1 : failed_login_rate ls <;>
      cases e2 : unauth_rate atts <;>
        simp [create_fraud_score_gauge, e1, e2, attack_rate]

/-- Witness for the amended C3 at a concrete input with empty auth table. -/
theorem fraud_score_empty_fails_witness :
    create_fraud_score_gauge [sampleLogin] [] [sampleReq] = none :=
  fraud_score_empty_fails [sampleLogin] [] [sampleReq] (Or.inr (Or.inl rfl))

/-- Tab-5 session anomaly:
`df2_duration[(duration_minutes < 3) | (duration_minutes > 180)]`. -/
def suspicious_sessions (df : List SessionRecord) : List SessionRecord :=
  df.filter (fun s => decide (s.duration_minutes < 3) || decide (s.duration_minutes > 180))

/-- Tab-5 brute-force anomaly:
`df3_unauth[(auth_status=='unauthenticated') & (attempt_count > 10)]`. -/
def brute_force (df : List AuthAttempt) : List AuthAttempt :=
  df.filter (fun a => a.auth_status == "unauthenticated" && decide (a.attempt_count > 10))

/-- Tab-5 DOS anomaly: `df4_requests[request_type=='dos_attack']`. -/
def dos_attacks (df : List RequestLog) : List RequestLog :=
  df.filter (fun r => r.request_type == "dos_attack")

/-- Tab-5 suspended services: `df5_services[status=='suspended']`. -/
def suspended_services (df : List ServiceSubscription) : List ServiceSubscription :=
  df.filter (fun s => s.status == "suspended")

/-- Embeds `create_top_ips_chart`'s filter
`df[df['request_type'].isin(['blank', 'dos_attack'])]`. -/
def suspicious_requests (df : List RequestLog) : List RequestLog :=
  df.filter (fun r => r.request_type == "blank" || r.request_type == "dos_attack")

/-- C5: the session anomaly set is exactly
`{duration < 3} ∪ {duration > 180}`, and a session with duration exactly 3
or exactly 180 is not flagged. -/
theorem suspicious_sessions_spec (df : List SessionRecord) :
    (∀ s : SessionRecord, s ∈ suspicious_sessions df ↔
      s ∈ df ∧ (s.duration_minutes < 3 ∨ s.duration_minutes > 180)) ∧
    (∀ s : SessionRecord, s ∈ df →
      (s.duration_minutes = 3 ∨ s.duration_minutes = 180) →
      s ∉ suspicious_sessions df) := by
  constructor
  · intro s
    simp [suspicious_sessions, List.mem_filter]
  · intro s _ h3 hmem
    rw [suspicious_sessions, List.mem_filter] at hmem
    rcases h3 with h3 | h3 <;> rw [h3] at hmem <;> simp at hmem

/-- Witness for C5: a 2-minute session is flagged, a 3-minute one is not. -/
theorem suspicious_sessions_spec_witness :
    (⟨"SES00001", "USR0001", "t0", "t1", 2⟩ : SessionRecord) ∈
      suspicious_sessions [⟨"SES00001", "USR0001", "t0", "t1", 2⟩,
        ⟨"SES00002", "USR0002", "t0", "t1", 3⟩] ∧
    (⟨"SES00002", "USR0002", "t0", "t1", 3⟩ : SessionRecord) ∉
      suspicious_sessions [⟨"SES00001", "USR0001", "t0", "t1", 2⟩,
        ⟨"SES00002", "USR0002", "t0", "t1", 3⟩] :=
  ⟨((suspicious_sessions_spec _).1 _).mpr (by decide),
   (suspicious_sessions_spec _).2 _ (by decide) (Or.inl rfl)⟩

/-- C6: the brute-force anomaly set is exactly the rows with
`auth_status == "unauthenticated"` and `attempt_count > 10`; an
unauthenticated row with `attempt_count = 10` is not flagged. -/
theorem brute_force_spec (df : List AuthAttempt) :
    (∀ a : AuthAttempt, a ∈ brute_force df ↔
      a ∈ df ∧ a.auth_status = "unauthenticated" ∧ a.attempt_count > 10) ∧
    (∀ a : AuthAttempt, a ∈ df → a.attempt_count = 10 →
      a ∉ brute_force df) := by
  constructor
  · intro a
    simp [brute_force, List.mem_filter, and_assoc]
  · intro a _ h10 hmem
    rw [brute_force, List.mem_filter] at hmem
    rw [h10] at hmem
    simp at hmem

/-- Witness for C6: an unauthenticated row with 11 attempts is flagged, one
with 10 attempts is not. -/
theorem brute_force_spec_witness :
    (⟨"t", "9.9.9.9", "unauthenticated", 11, "Invalid_OTP"⟩ : AuthAttempt) ∈
      brute_force [⟨"t", "9.9.9.9", "unauthenticated", 11, "Invalid_OTP"⟩,
        ⟨"t", "9.9.9.9", "unauthenticated", 10, "Invalid_OTP"⟩] ∧
    (⟨"t", "9.9.9.9", "unauthenticated", 10, "Invalid_OTP"⟩ : AuthAttempt) ∉
      brute_force [⟨"t", "9.9.9.9", "unauthenticated", 11, "Invalid_OTP"⟩,
        ⟨"t", "9.9.9.9", "unauthenticated", 10, "Invalid_OTP"⟩] :=
  ⟨((brute_force_spec _).1 _).mpr (by decide),
   (brute_force_spec _).2 _ (by decide) rfl⟩

/-- C8: the composite score is monotonically non-decreasing in each of the
three rates individually, the other two held fixed. -/
theorem fraud_score_monotone (flr flr' ur ur' ar ar' : ℚ) :
    (flr ≤ flr' → fraud_score_of_rates flr ur ar ≤ fraud_score_of_rates flr' ur ar) ∧
    (ur ≤ ur' → fraud_score_of_rates flr ur ar ≤ fraud_score_of_rates flr ur' ar) ∧
    (ar ≤ ar' → fraud_score_of_rates flr ur ar ≤ fraud_score_of_rates flr ur ar') := by
  refine ⟨?_, ?_, ?_⟩ <;> intro h <;> rw [fraud_score_of_rates, fraud_score_of_rates] <;>
    nlinarith

/-- Witness for C8 at concrete rates. -/
theorem fraud_score_monotone_witness :
    fraud_score_of_rates 10 20 30 ≤ fraud_score_of_rates 50 20 30 :=
  (fraud_score_monotone 10 50 20 20 30 30).1 (by norm_num)

/-- C10: each row-level anomaly filter returns a sublist (subsequence) of
its input table: flagged rows keep their relative order and are not
duplicated. -/
theorem anomaly_filters_sublist (sess : List SessionRecord)
    (atts : List AuthAttempt) (reqs : List RequestLog)
    (svcs : List ServiceSubscription) :
    List.Sublist (suspicious_sessions sess) sess ∧
    List.Sublist (brute_force atts) atts ∧
    List.Sublist (dos_attacks reqs) reqs ∧
    List.Sublist (suspended_services svcs) svcs :=
  ⟨List.filter_sublist _, List.filter_sublist _,
   List.filter_sublist _, List.filter_sublist _⟩

/-- Embeds `series.groupby(key).size()` data: each distinct value of the series
paired with its number of occurrences. -/
def group_size (vals : List String) : List (String × Nat) :=
  vals.dedup.map (fun v => (v, (vals.filter (fun x => x == v)).length))

/-- Embeds `.sort_values(ascending=False)` on a series of counts. -/
def sort_desc (l : List (String × Nat)) : List (String × Nat) :=
  l.mergeSort (fun a b => decide (b.2 ≤ a.2))

/-- Embeds `series.value_counts()`: occurrence counts sorted descending. -/
def value_counts (vals : List String) : List (String × Nat) :=
  sort_desc (group_size vals)

/-- Embeds `create_top_ips_chart`'s data:
`suspicious_df['ip_address'].value_counts().head(top_n)`. -/
def top_ips (df : List RequestLog) (top_n : Nat) : List (String × Nat) :=
  (value_counts ((suspicious_requests df).map (fun r => r.ip_address))).take top_n

/-- Embeds `df1_login[df1_login['login_status']=='failed']`. -/
def failed_logins (df : List LoginEvent) : List LoginEvent :=
  df.filter (fun r => r.login_status == "failed")

/-- Embeds `failed_by_ip = failed.groupby('ip_address').size()`. -/
def failed_by_ip (df : List LoginEvent) : List (String × Nat) :=
  group_size ((failed_logins df).map (fun r => r.ip_address))

/-- Embeds `critical_ips = failed_by_ip[failed_by_ip > 5].sort_values(ascending=False)`. -/
def critical_ips (df : List LoginEvent) : List (String × Nat) :=
  sort_desc ((failed_by_ip df).filter (fun p => decide (5 < p.2)))

/-- Embeds `dos_by_ip = dos_attacks.groupby('ip_address').size()
.sort_values(ascending=False).head(10)` (tab 5). -/
def dos_by_ip (df : List RequestLog) : List (String × Nat) :=
  (sort_desc (group_size ((dos_attacks df).map (fun r => r.ip_address)))).take 10

/-- Number of failed-login rows of `df` carrying the given `ip`. -/
def failed_count_ip (df : List LoginEvent) (ip : String) : Nat :=
  ((failed_logins df).filter (fun r => r.ip_address == ip)).length

/-- Number of blank/dos_attack request rows of `df` carrying the given `ip`. -/
def attack_count_ip (df : List RequestLog) (ip : String) : Nat :=
  ((suspicious_requests df).filter (fun r => r.ip_address == ip)).length

lemma length_filter_map_eq {α : Type} (l : List α) (f : α → String) (ip : String) :
    ((l.map f).filter (fun x => x == ip)).length
      = (l.filter (fun r => f r == ip)).length := by
  rw [← List.countP_eq_length_filter, ← List.countP_eq_length_filter, List.countP_map]
  rfl

lemma count_ip_failed (df : List LoginEvent) (ip : String) :
    ((((failed_logins df).map (fun r => r.ip_address)).filter
        (fun x => x == ip))).length = failed_count_ip df ip :=
  length_filter_map_eq (failed_logins df) (fun r => r.ip_address) ip

lemma count_ip_attack (df : List RequestLog) (ip : String) :
    ((((suspicious_requests df).map (fun r => r.ip_address)).filter
        (fun x => x == ip))).length = attack_count_ip df ip :=
  length_filter_map_eq (suspicious_requests df) (fun r => r.ip_address) ip

lemma mem_group_size {vals : List String} {v : String} {c : Nat} :
    (v, c) ∈ group_size vals ↔
      v ∈ vals ∧ c = (vals.filter (fun x => x == v)).length := by
  rw [group_size]
  simp only [List.mem_map, List.mem_dedup]
  constructor
  · rintro ⟨a, ha, heq⟩
    injection heq with h1 h2
    subst h1
    exact ⟨ha, h2.symm⟩
  · rintro ⟨hv, rfl⟩
    exact ⟨v, hv, rfl⟩

lemma count_pos_of_mem {vals : List String} {v : String} (h : v ∈ vals) :
    0 < (vals.filter (fun x => x == v)).length :=
  List.length_pos_of_mem (List.mem_filter.mpr ⟨h, by simp⟩)

lemma mem_of_count_pos {vals : List String} {v : String}
    (h : 0 < (vals.filter (fun x => x == v)).length) : v ∈ vals := by
  obtain ⟨x, hx⟩ := List.exists_mem_of_length_pos h
  obtain ⟨hx1, hx2⟩ := List.mem_filter.mp hx
  have hxv : x = v := by simpa using hx2
  exact hxv ▸ hx1

lemma sort_desc_pairwise (l : List (String × Nat)) :
    (sort_desc l).Pairwise (fun a b => b.2 ≤ a.2) := by
  rw [sort_desc]
  have h : (l.mergeSort (fun a b => decide (b.2 ≤ a.2))).Pairwise
      (fun a b => decide (b.2 ≤ a.2) = true) :=
    List.sorted_mergeSort
      (fun a b c h1 h2 => by simp only [decide_eq_true_eq] at *; omega)
      (fun a b => by simp only [Bool.or_eq_true, decide_eq_true_eq]; omega) l
  exact h.imp (fun hab => by simpa using hab)

lemma mem_sort_desc {l : List (String × Nat)} {p : String × Nat} :
    p ∈ sort_desc l ↔ p ∈ l := by
  rw [sort_desc]
  exact List.mem_mergeSort

lemma value_counts_count (vals : List String) :
    ∀ p ∈ value_counts vals,
      p.2 = (vals.filter (fun x => x == p.1)).length ∧ 0 < p.2 := by
  rintro ⟨v, c⟩ hp
  rw [value_counts, mem_sort_desc, mem_group_size] at hp
  obtain ⟨hv, hc⟩ := hp
  have hpos := count_pos_of_mem hv
  exact ⟨hc, by omega⟩

lemma value_counts_dominance (vals : List String) (n : Nat) (v : String)
    (hnot : (v, (vals.filter (fun x => x == v)).length) ∉ (value_counts vals).take n) :
    ∀ q ∈ (value_counts vals).take n, (vals.filter (fun x => x == v)).length ≤ q.2 := by
  intro q hq
  by_cases hz : (vals.filter (fun x => x == v)).length = 0
  · rw [hz]
    exact Nat.zero_le _
  · have hv : v ∈ vals := mem_of_count_pos (Nat.pos_of_ne_zero hz)
    have hmemS : (v, (vals.filter (fun x => x == v)).length) ∈ value_counts vals := by
      rw [value_counts, mem_sort_desc, mem_group_size]
      exact ⟨hv, rfl⟩
    have hPW : (value_counts vals).Pairwise (fun a b => b.2 ≤ a.2) := by
      rw [value_counts]
      exact sort_desc_pairwise _
    have hsplit := List.take_append_drop n (value_counts vals)
    rw [← hsplit] at hPW hmemS
    have hcross := (List.pairwise_append.mp hPW).2.2
    rcases List.mem_append.mp hmemS with hin | hin
    · exact absurd hin hnot
    · exact hcross q hq _ hin

/-- C7: the failed-login anomaly contains exactly the IPs whose
failed-login count is strictly greater than 5, each paired with that count,
and the result is sorted in descending order by count. -/
theorem critical_ips_spec (df : List LoginEvent) :
    (∀ ip c, (ip, c) ∈ critical_ips df ↔ (c = failed_count_ip df ip ∧ 5 < c)) ∧
    (critical_ips df).Pairwise (fun a b => b.2 ≤ a.2) := by
  refine ⟨?_, sort_desc_pairwise _⟩
  intro ip c
  have hmem : (ip, c) ∈ critical_ips df ↔ ((ip, c) ∈ failed_by_ip df ∧ 5 < c) := by
    rw [critical_ips, mem_sort_desc, List.mem_filter]
    simp
  rw [hmem, failed_by_ip, mem_group_size, count_ip_failed]
  constructor
  · rintro ⟨⟨_, hc⟩, h5⟩
    exact ⟨hc, h5⟩
  · rintro ⟨hc, h5⟩
    refine ⟨⟨?_, hc⟩, h5⟩
    apply mem_of_count_pos
    rw [count_ip_failed, ← hc]
    omega

/-- Witness for C7: with six failed logins from one IP and one from
another, exactly the first IP is flagged with count 6. -/
theorem critical_ips_spec_witness :
    (("9.9.9.9", 6) ∈ critical_ips
      (List.replicate 6 ⟨"t", "SUS0001", "9.9.9.9", "failed", "Chrome"⟩ ++
        [⟨"t", "USR0001", "1.1.1.1", "failed", "Chrome"⟩]) ↔
      (6 = failed_count_ip
        (List.replicate 6 ⟨"t", "SUS0001", "9.9.9.9", "failed", "Chrome"⟩ ++
          [⟨"t", "USR0001", "1.1.1.1", "failed", "Chrome"⟩]) "9.9.9.9" ∧ 5 < 6)) :=
  (critical_ips_spec _).1 "9.9.9.9" 6

/-- C4: the DOS anomaly flags exactly the rows with
`request_type == "dos_attack"`, and the top-IP ranking over the blank /
dos_attack requests lists at most ten entries, sorted descending by count,
each entry carrying the exact attack count of its IP, every listed count
dominating the count of any IP left out. -/
theorem dos_anomaly_spec (df : List RequestLog) :
    (∀ r : RequestLog, r ∈ dos_attacks df ↔ r ∈ df ∧ r.request_type = "dos_attack") ∧
    (top_ips df 10).length ≤ 10 ∧
    (top_ips df 10).Pairwise (fun a b => b.2 ≤ a.2) ∧
    (∀ p ∈ top_ips df 10, p.2 = attack_count_ip df p.1 ∧ 0 < p.2) ∧
    (∀ ip : String, (ip, attack_count_ip df ip) ∉ top_ips df 10 →
      ∀ q ∈ top_ips df 10, attack_count_ip df ip ≤ q.2) := by
  refine ⟨?_, ?_, ?_, ?_, ?_⟩
  · intro r
    simp [dos_attacks, List.mem_filter]
  · rw [top_ips]
    exact le_trans (Nat.le_of_eq (List.length_take 10 _)) (Nat.min_le_left _ _)
  · rw [top_ips, value_counts]
    exact (sort_desc_pairwise _).sublist (List.take_sublist 10 _)
  · intro p hp
    have hp' : p ∈ value_counts ((suspicious_requests df).map (fun r => r.ip_address)) :=
      List.mem_of_mem_take hp
    have h := value_counts_count _ p hp'
    rw [count_ip_attack] at h
    exact h
  · intro ip hnot q hq
    have hnot' : (ip, (((suspicious_requests df).map (fun r => r.ip_address)).filter
        (fun x => x == ip)).length) ∉
        (value_counts ((suspicious_requests df).map (fun r => r.ip_address))).take 10 := by
      rw [count_ip_attack]
      exact hnot
    have h := value_counts_dominance _ 10 ip hnot' q hq
    rw [count_ip_attack] at h
    exact h

/-- Sample dos_attack request row, for concrete witnesses. -/
def sampleDos : RequestLog :=
  ⟨"2026-02-01 00:00:00", "9.9.9.9", "dos_attack", 20000, 429⟩

/-- Witness for C4: over a single dos_attack request from 9.9.9.9, the top
list is exactly that IP with count 1, and the count of an unlisted IP is
dominated. -/
theorem dos_anomaly_spec_witness :
    attack_count_ip [sampleDos] "1.2.3.4" ≤ (("9.9.9.9" : String), (1 : Nat)).2 :=
  (dos_anomaly_spec [sampleDos]).2.2.2.2 "1.2.3.4"
    (by simp [top_ips, value_counts, sort_desc, group_size,
      suspicious_requests, sampleDos, attack_count_ip])
    ("9.9.9.9", 1)
    (by simp [top_ips, value_counts, sort_desc, group_size,
      suspicious_requests, sampleDos])

/-- The ambient tables held in `st.session_state` across one analysis. -/
structure SessionState where
  df1_login : List LoginEvent
  df2_duration : List SessionRecord
  df3_unauth : List AuthAttempt
  df4_requests : List RequestLog
  df5_services : List ServiceSubscription
deriving DecidableEq

/-- The structured values the analysis pass produces: the fraud gauge data
and the five tab-5 anomaly results. -/
structure AnomalyReport where
  fraud_gauge : Option (ℚ × String)
  critical : List (String × Nat)
  suspicious : List SessionRecord
  brute : List AuthAttempt
  dos : List RequestLog
  dosTopIps : List (String × Nat)
  suspended : List ServiceSubscription
deriving DecidableEq

/-- Fraud-gauge step over the session state: pandas indexing allocates new
frames from the stored tables, which stay as they are. -/
def fraud_gauge_step (st : SessionState) : Option (ℚ × String) × SessionState :=
  (create_fraud_score_gauge st.df1_login st.df3_unauth st.df4_requests, st)

/-- Failed-login anomaly step over the session state. -/
def failed_login_step (st : SessionState) : List (String × Nat) × SessionState :=
  (critical_ips st.df1_login, st)

/-- Session-duration anomaly step over the session state. -/
def session_step (st : SessionState) : List SessionRecord × SessionState :=
  (suspicious_sessions st.df2_duration, st)

/-- Brute-force anomaly step over the session state. -/
def brute_force_step (st : SessionState) : List AuthAttempt × SessionState :=
  (brute_force st.df3_unauth, st)

/-- DOS anomaly step over the session state (flagged rows and top-10 IPs). -/
def dos_step (st : SessionState) :
    (List RequestLog × List (String × Nat)) × SessionState :=
  ((dos_attacks st.df4_requests, dos_by_ip st.df4_requests), st)

/-- Suspended-services anomaly step over the session state. -/
def suspended_step (st : SessionState) : List ServiceSubscription × SessionState :=
  (suspended_services st.df5_services, st)

/-- One full analysis pass: the fraud gauge followed by the five tab-5
anomaly detections, threading the session state through each step in the
order the dashboard runs them. -/
def analysis_pass (st : SessionState) : AnomalyReport × SessionState :=
  let fr := fraud_gauge_step st
  let ci := failed_login_step fr.2
  let ss := session_step ci.2
  let bf := brute_force_step ss.2
  let dd := dos_step bf.2
  let su := suspended_step dd.2
  (⟨fr.1, ci.1, ss.1, bf.1, dd.1.1, dd.1.2, su.1⟩, su.2)

/-- C9: the analysis pass leaves all five tables exactly as loaded — no
row is created, mutated, destroyed or reordered — and every one of its
results is the pure function of the original tables. -/
theorem analysis_pass_frame (st : SessionState) :
    (analysis_pass st).2 = st ∧
    (analysis_pass st).1 =
      ⟨create_fraud_score_gauge st.df1_login st.df3_unauth st.df4_requests,
        critical_ips st.df1_login,
        suspicious_sessions st.df2_duration,
        brute_force st.df3_unauth,
        dos_attacks st.df4_requests,
        dos_by_ip st.df4_requests,
        suspended_services st.df5_services⟩ :=
  ⟨rfl, rfl⟩
